import Mathlib

/-!
Verification of the LSTM cell and sequence-driver code of the
black-box-ml repository (notebook `Understanding LSTMs`, classes
`LSTMCell` and `LSTMLayer`) against its specification.

Vectors (1-D tensors) are modelled as `List ℝ`; `nn.Linear` is a weight
matrix plus bias; Python exceptions are modelled with `Except PyErr`.
-/

namespace BlackBoxML

/-- Python / torch runtime errors that the modelled code can raise. -/
inductive PyErr where
  /-- NameError: a name is referenced that is not bound in scope. -/
  | nameError : PyErr
  /-- RuntimeError from a shape mismatch in a linear layer application. -/
  | dimMismatch : PyErr
  /-- RuntimeError: stack expects a non-empty TensorList. -/
  | stackEmptyList : PyErr
deriving DecidableEq

/-- Elementwise addition of two equal-length vectors (torch `+`). -/
def vadd (xs ys : List ℝ) : List ℝ := List.zipWith (fun a b => a + b) xs ys

/-- Elementwise (Hadamard) product of two equal-length vectors (torch `*`). -/
def vmul (xs ys : List ℝ) : List ℝ := List.zipWith (fun a b => a * b) xs ys

/-- Dot product of two vectors. -/
def dot (xs ys : List ℝ) : ℝ := (List.zipWith (fun a b => a * b) xs ys).sum

/-- The scalar `torch.sigmoid`: `1 / (1 + exp (-x))`. -/
noncomputable def sigmoid (x : ℝ) : ℝ := 1 / (1 + Real.exp (-x))

/-- Elementwise `torch.sigmoid` on a vector. -/
noncomputable def vsigmoid (xs : List ℝ) : List ℝ := xs.map sigmoid

/-- Elementwise `torch.tanh` on a vector. -/
noncomputable def vtanh (xs : List ℝ) : List ℝ := xs.map Real.tanh

/-- The chunk size `torch.chunk(4, ...)` uses: `ceil (len / 4)`. -/
def chunkSize (len : ℕ) : ℕ := (len + 3) / 4

/-- Source line 179, `weights.chunk(4, 1)`: split a vector into four
contiguous chunks of `chunkSize` elements each. -/
def chunk4 (w : List ℝ) : List ℝ × List ℝ × List ℝ × List ℝ :=
  (w.take (chunkSize w.length),
   ((w.drop (chunkSize w.length)).take (chunkSize w.length)),
   (((w.drop (chunkSize w.length)).drop (chunkSize w.length)).take (chunkSize w.length)),
   ((((w.drop (chunkSize w.length)).drop (chunkSize w.length)).drop (chunkSize w.length)).take
      (chunkSize w.length)))

/-- A `nn.Linear(in_features, out_features)` module: a weight matrix (one row per
output feature) and a bias vector. -/
structure Linear where
  in_features : ℕ
  out_features : ℕ
  weight : List (List ℝ)
  bias : List ℝ

/-- Well-formedness of a linear layer: the weight matrix has
`out_features` rows of `in_features` entries each, the bias has
`out_features` entries. -/
def Linear.WF (l : Linear) : Prop :=
  l.weight.length = l.out_features ∧
    (∀ row ∈ l.weight, row.length = l.in_features) ∧
    l.bias.length = l.out_features

/-- Applying `nn.Linear` to a vector: `W x + b`; raises a shape-mismatch
error when the input's length disagrees with `in_features`. -/
noncomputable def Linear.run (l : Linear) (x : List ℝ) : Except PyErr (List ℝ) :=
  if x.length = l.in_features then
    .ok (List.zipWith (fun row b => dot row x + b) l.weight l.bias)
  else
    .error .dimMismatch

/-- The `LSTMCell` module: `input_layer = nn.Linear(input_dim, 4*hidden_dim)`
and `hidden_layer = nn.Linear(hidden_dim, 4*hidden_dim)` (source lines
167-171). -/
structure LSTMCell where
  input_layer : Linear
  hidden_layer : Linear

/-- The cell produced by `LSTMCell.__init__(input_dim, hidden_dim)`, with
given parameter values: shape bookkeeping of the two linear layers. -/
def LSTMCell.WF (c : LSTMCell) (input_dim hidden_dim : ℕ) : Prop :=
  c.input_layer.WF ∧ c.hidden_layer.WF ∧
    c.input_layer.in_features = input_dim ∧
    c.input_layer.out_features = 4 * hidden_dim ∧
    c.hidden_layer.in_features = hidden_dim ∧
    c.hidden_layer.out_features = 4 * hidden_dim

/-- Source line 177, as literally written:
`weights = self.input_layer(current_input) + self.hidden_layer(previous_hidden)`.
Python evaluates the left operand first (so a shape mismatch of
`current_input` surfaces as a dimension error), then evaluating the right
operand reads the name `previous_hidden`, which is bound nowhere in the
function body (the tuple unpacking on line 175 binds
`previous_hidden_state`), so Python raises `NameError` there. -/
noncomputable def lineWeightsLiteral (c : LSTMCell) (current_input : List ℝ) :
    Except PyErr (List ℝ) :=
  match c.input_layer.run current_input with
  | .error e => .error e
  | .ok _ => .error .nameError

/-- The method `LSTMCell.forward` as literally written in the source (lines 173-190):
the unpacking of `previous_state` never raises, and line 177
(`lineWeightsLiteral`) raises before any gate is computed. -/
noncomputable def LSTMCell.forward (c : LSTMCell) (current_input : List ℝ)
    (previous_state : List ℝ × List ℝ) :
    Except PyErr (List ℝ × (List ℝ × List ℝ)) :=
  match lineWeightsLiteral c current_input with
  | .error e => .error e
  | .ok _ => .error .nameError

/-- Line 177 with the out-of-scope name `previous_hidden` read as
`previous_hidden_state` (the variable bound by the unpacking on line 175):
the pre-activation `input_layer(current_input) + hidden_layer(previous_hidden_state)`.
This is NOT the literal source behaviour - the source raises `NameError`
at this point (`lineWeightsLiteral`); it models the unambiguous intent of
the surrounding code and prose, for the code-bug divergence records. -/
noncomputable def preactivation (c : LSTMCell)
    (current_input previous_hidden_state : List ℝ) : Except PyErr (List ℝ) :=
  match c.input_layer.run current_input with
  | .error e => .error e
  | .ok a =>
    match c.hidden_layer.run previous_hidden_state with
    | .error e => .error e
    | .ok b => .ok (vadd a b)

/-- Source line 181: `input_gate = torch.sigmoid(gates[0])`. -/
noncomputable def input_gate (w : List ℝ) : List ℝ := vsigmoid (chunk4 w).1

/-- Source line 182: `forget_gate = torch.sigmoid(gates[1])`. -/
noncomputable def forget_gate (w : List ℝ) : List ℝ := vsigmoid (chunk4 w).2.1

/-- Source line 183: `output_gate = torch.sigmoid(gates[2])`. -/
noncomputable def output_gate (w : List ℝ) : List ℝ := vsigmoid (chunk4 w).2.2.1

/-- Source line 185: `cell_gate = torch.tanh(gates[3])`. -/
noncomputable def cell_gate (w : List ℝ) : List ℝ := vtanh (chunk4 w).2.2.2

/-- Source line 187:
`new_cell = (forget_gate * previous_cell_state) + (input_gate * cell_gate)`. -/
noncomputable def new_cell (w previous_cell_state : List ℝ) : List ℝ :=
  vadd (vmul (forget_gate w) previous_cell_state) (vmul (input_gate w) (cell_gate w))

/-- Source line 188: `new_hidden = output_gate * torch.tanh(new_cell)`. -/
noncomputable def new_hidden (w previous_cell_state : List ℝ) : List ℝ :=
  vmul (output_gate w) (vtanh (new_cell w previous_cell_state))

/-- The method `LSTMCell.forward` with the single out-of-scope name on line 177 read
as `previous_hidden_state`; every other statement is translated verbatim.
Returns `(new_hidden, (new_hidden, new_cell))` (source line 190). This is
NOT the literal source behaviour - the source raises `NameError` on every
call (`LSTMCell.forward` above); it models the unambiguous intent, used
to document what the intended computation satisfies and as the body of
the frame model `LSTMCell.forwardProg`. -/
noncomputable def LSTMCell.forwardFixed (c : LSTMCell) (current_input : List ℝ)
    (previous_state : List ℝ × List ℝ) :
    Except PyErr (List ℝ × (List ℝ × List ℝ)) :=
  match preactivation c current_input previous_state.1 with
  | .error e => .error e
  | .ok weights =>
    .ok (new_hidden weights previous_state.2,
         (new_hidden weights previous_state.2, new_cell weights previous_state.2))

/-- The environment an invocation of `LSTMCell.forward` can read: the
cell's parameters and the caller-supplied arguments. Used to state that
the call mutates none of them. -/
structure CellEnv where
  cell : LSTMCell
  current_input : List ℝ
  previous_state : List ℝ × List ℝ

/-- The cell invocation (intent reading) as a state transformer over its
environment: the body only reads `e`; no statement assigns to the
parameters or arguments, so the environment is returned as-is. -/
noncomputable def LSTMCell.forwardProg (e : CellEnv) :
    Except PyErr (List ℝ × (List ℝ × List ℝ)) × CellEnv :=
  (e.cell.forwardFixed e.current_input e.previous_state, e)

/- ------------------------------------------------------------------ -/
/- The sequence driver `LSTMLayer` (source lines 207-222).             -/
/- ------------------------------------------------------------------ -/

/-- The loop of `LSTMLayer.forward` (source lines 217-220): iterate the
cell over the time steps in increasing order, threading the carried
state, collecting each step's emitted output in order; a raised error
propagates. -/
def runLoop {V S : Type} (step : V → S → Except PyErr (V × S)) :
    List V → S → Except PyErr (List V × S)
  | [], state => .ok ([], state)
  | x :: xs, state =>
    match step x state with
    | .error e => .error e
    | .ok (output, state') =>
      match runLoop step xs state' with
      | .error e => .error e
      | .ok (outputs, final) => .ok (output :: outputs, final)

/-- The method `LSTMLayer.forward` (source lines 214-222): unbind the input into its
time steps, run the loop, then `torch.stack(outputs, dim=1)` - which
raises when the collected output list is empty. -/
def LSTMLayer.forward {V S : Type} (step : V → S → Except PyErr (V × S))
    (input : List V) (state : S) : Except PyErr (List V × S) :=
  match runLoop step input state with
  | .error e => .error e
  | .ok (outputs, final) =>
    if outputs.isEmpty then .error .stackEmptyList else .ok (outputs, final)

/-- A cell step that always succeeds, wrapping a total step function. -/
def okStep {V S : Type} (g : V → S → V × S) : V → S → Except PyErr (V × S) :=
  fun v s => .ok (g v s)

/-- The emitted outputs of iterating a total step function over a
sequence, threading the state. -/
def runOutputs {V S : Type} (g : V → S → V × S) : List V → S → List V
  | [], _ => []
  | x :: xs, s => (g x s).1 :: runOutputs g xs (g x s).2

/-- The carried state after `k` iterations of a total step function over
a sequence (the state after completing step `k - 1`); `stateAt g xs s 0 = s`. -/
def stateAt {V S : Type} (g : V → S → V × S) : List V → S → ℕ → S
  | _, s, 0 => s
  | [], s, _ + 1 => s
  | x :: xs, s, k + 1 => stateAt g xs (g x s).2 k

/- ------------------------------------------------------------------ -/
/- Spec-side formulations (from the specification's words, to be        -/
/- compared with the code-side definitions above).                      -/
/- ------------------------------------------------------------------ -/

/-- Modelled from the spec: `new_memory = (forget ⊙ previous_memory) + (input ⊙ candidate)`,
elementwise. -/
def specMemoryBlend (f oldmem i cand : List ℝ) : List ℝ :=
  List.zipWith (fun a b => a + b) (List.zipWith (fun a b => a * b) f oldmem)
    (List.zipWith (fun a b => a * b) i cand)

/-- Modelled from the spec: `new_hidden = output ⊙ tanh_like(new_memory)`,
elementwise. -/
noncomputable def specHiddenUpdate (o newmem : List ℝ) : List ℝ :=
  List.zipWith (fun a b => a * b) o (newmem.map Real.tanh)

/-- A concrete `LSTMCell` with `input_dim = 1`, `hidden_dim = 1` and all
parameters zero, used as a test vehicle. -/
noncomputable def cellD1H1 : LSTMCell :=
  ⟨⟨1, 4, [[0], [0], [0], [0]], [0, 0, 0, 0]⟩,
   ⟨1, 4, [[0], [0], [0], [0]], [0, 0, 0, 0]⟩⟩

/- ------------------------------------------------------------------ -/
/- Claims.                                                             -/
/- ------------------------------------------------------------------ -/

/-- Claim C1. The claim says `LSTMCell.forward` computes the combined
pre-activation and returns successfully for every correctly-shaped input.
The code as written does not: line 177 references the name
`previous_hidden`, which is bound nowhere (line 175 binds
`previous_hidden_state`), so on a correctly-shaped input (`D = 1`,
`H = 1`, input `[0]`, state `([0], [0])`) the call raises `NameError`
instead of returning. -/
theorem forward_literal_raises_nameError :
    LSTMCell.forward cellD1H1 [0] ([0], [0]) = .error .nameError := by
  rfl

/-- Claim C7. With a correctly-shaped `current_input` (length `D = 1`)
but a mis-shaped hidden component (length 2 instead of `H = 1`), the
literal `LSTMCell.forward` raises `NameError`, not the dimension-mismatch
error the claim requires; a mis-shaped `current_input` (length 2 instead
of `D = 1`) does surface a dimension-mismatch error; and the two errors
are distinct. -/
theorem forward_literal_dimension_error_behaviour :
    LSTMCell.forward cellD1H1 [0] ([0, 0], [0]) = .error .nameError ∧
    LSTMCell.forward cellD1H1 [0, 0] ([0], [0]) = .error .dimMismatch ∧
    PyErr.nameError ≠ PyErr.dimMismatch := by
  refine ⟨rfl, ?_, by decide⟩
  rfl

/-- Claim C2. The claim says every valid invocation of `LSTMCell.forward`
produces a new memory state equal to the blend
`(forget ⊙ previous_memory) + (input ⊙ candidate)`. The code as written
produces no memory state at all: on the correctly-shaped input below
(`D = H = 1`, previous memory `[1]`) the call raises `NameError` at line
177, before the memory update on line 187 can run, so it returns no
value. Line 187 itself does spell exactly the claimed blend (see
`forwardFixed_memory_is_spec_blend` for the intent reading), so the claim
states the intent and the code is the slip. -/
theorem forward_literal_no_memory_write :
    LSTMCell.forward cellD1H1 [0] ([0], [1]) = .error .nameError := by
  rfl

/-- Claim C3. The claim says every valid invocation of `LSTMCell.forward`
returns `new_hidden` together with the pair `(new_hidden, new_cell)`.
The code as written returns nothing: on the correctly-shaped input below
(`D = H = 1`, current input `[1]`) the call raises `NameError` at line
177, before the return on line 190 can run. Line 190 itself does return
exactly the claimed values (see `forwardFixed_hidden_and_return_shape`
for the intent reading), so the claim states the intent and the code is
the slip. -/
theorem forward_literal_no_return_value :
    LSTMCell.forward cellD1H1 [1] ([0], [0]) = .error .nameError := by
  rfl

/-- Claim C5. The claim says every valid invocation of `LSTMCell.forward`
applies sigmoid to the forget, input and output chunks and tanh to the
candidate chunk, with the stated saturation bounds. The code as written
never applies any nonlinearity: on the correctly-shaped input below
(`D = H = 1`, previous hidden `[1]`) the call raises `NameError` at line
177, before the gate computations on lines 181-188 can run. Those lines
do apply exactly the claimed nonlinearities, whose outputs satisfy the
claimed bounds (see `forwardFixed_gate_bounds` for the intent reading),
so the claim states the intent and the code is the slip. -/
theorem forward_literal_no_gate_application :
    LSTMCell.forward cellD1H1 [0] ([1], [0]) = .error .nameError := by
  rfl

/-- Claim C10. The empty-sequence policy of `LSTMLayer.forward` is
`error`: with zero time steps the loop body never runs, the collected
output list is empty, and `torch.stack` on the empty list raises - for
every cell step function and every initial state. -/
theorem layer_forward_empty_sequence_error {V S : Type}
    (step : V → S → Except PyErr (V × S)) (state : S) :
    LSTMLayer.forward step [] state = .error .stackEmptyList := by
  rfl

/-- Claim C8. `LSTMCell.forward` has no side effects: run as a state
transformer over the environment holding its parameters and arguments,
it returns the environment unchanged, and invoking it a second time on
the environment left by the first invocation yields an identical result. -/
theorem forwardProg_no_side_effects (e : CellEnv) :
    (LSTMCell.forwardProg e).2 = e ∧
    (LSTMCell.forwardProg ((LSTMCell.forwardProg e).2)).1 = (LSTMCell.forwardProg e).1 := by
  exact ⟨rfl, rfl⟩

/-- With a correctly-shaped input, `Linear.run` succeeds with `W x + b`. -/
theorem Linear.run_ok (l : Linear) (x : List ℝ) (hx : x.length = l.in_features) :
    l.run x = .ok (List.zipWith (fun row b => dot row x + b) l.weight l.bias) := by
  simp [Linear.run, hx]

/-- With correctly-shaped input and hidden state, the pre-activation
succeeds and is the elementwise sum of the two affine projections. -/
theorem preactivation_ok (c : LSTMCell) (x h : List ℝ)
    (hx : x.length = c.input_layer.in_features)
    (hh : h.length = c.hidden_layer.in_features) :
    preactivation c x h =
      .ok (vadd (List.zipWith (fun row b => dot row x + b) c.input_layer.weight c.input_layer.bias)
        (List.zipWith (fun row b => dot row h + b) c.hidden_layer.weight c.hidden_layer.bias)) := by
  simp [preactivation, Linear.run_ok, hx, hh]

/-- Supporting development for claim C2 (the claim itself is settled by
`forward_literal_no_memory_write`): under the intent reading of
`LSTMCell.forward`, every correctly-shaped invocation succeeds and the
memory component of its carried state is exactly the spec's elementwise
blend `(forget ⊙ previous_memory) + (input ⊙ candidate)` of the gates
derived from the pre-activation; no other computation path produces it. -/
theorem forwardFixed_memory_is_spec_blend (c : LSTMCell) (x : List ℝ)
    (s : List ℝ × List ℝ)
    (hx : x.length = c.input_layer.in_features)
    (hh : s.1.length = c.hidden_layer.in_features) :
    ∃ w r, preactivation c x s.1 = .ok w ∧
      LSTMCell.forwardFixed c x s = .ok r ∧
      r.2.2 = specMemoryBlend (forget_gate w) s.2 (input_gate w) (cell_gate w) := by
  obtain ⟨w, hpre⟩ : ∃ w, preactivation c x s.1 = .ok w :=
    ⟨_, preactivation_ok c x s.1 hx hh⟩
  refine ⟨w, (new_hidden w s.2, (new_hidden w s.2, new_cell w s.2)), hpre, ?_, rfl⟩
  simp [LSTMCell.forwardFixed, hpre]

/-- Supporting development for claim C3 (the claim itself is settled by
`forward_literal_no_return_value`): under the intent reading of
`LSTMCell.forward`, every correctly-shaped invocation succeeds, its
emitted value is `output ⊙ tanh(new_memory)` where `new_memory` is the
carried memory component, and the carried state's first component is
identical to the emitted value (the return is
`(new_hidden, (new_hidden, new_cell))`). -/
theorem forwardFixed_hidden_and_return_shape (c : LSTMCell) (x : List ℝ)
    (s : List ℝ × List ℝ)
    (hx : x.length = c.input_layer.in_features)
    (hh : s.1.length = c.hidden_layer.in_features) :
    ∃ w r, preactivation c x s.1 = .ok w ∧
      LSTMCell.forwardFixed c x s = .ok r ∧
      r.1 = specHiddenUpdate (output_gate w) r.2.2 ∧
      r.2.1 = r.1 := by
  obtain ⟨w, hpre⟩ : ∃ w, preactivation c x s.1 = .ok w :=
    ⟨_, preactivation_ok c x s.1 hx hh⟩
  refine ⟨w, (new_hidden w s.2, (new_hidden w s.2, new_cell w s.2)), hpre, ?_, rfl, rfl⟩
  simp [LSTMCell.forwardFixed, hpre]

/-- Claim C9. The implementation's gate-chunk assignment: on a
pre-activation of length `4 * H`, chunk 0 (the first `H` entries) feeds
the input gate through sigmoid, chunk 1 the forget gate through sigmoid,
chunk 2 the output gate through sigmoid, and chunk 3 the candidate (cell)
gate through tanh - the order is (input, forget, output, candidate). -/
theorem gate_chunk_assignment_order (w : List ℝ) (H : ℕ) (hw : w.length = 4 * H) :
    input_gate w = vsigmoid (w.take H) ∧
    forget_gate w = vsigmoid ((w.drop H).take H) ∧
    output_gate w = vsigmoid (((w.drop H).drop H).take H) ∧
    cell_gate w = vtanh ((((w.drop H).drop H).drop H).take H) := by
  have hs : chunkSize w.length = H := by
    rw [hw]; unfold chunkSize; omega
  exact ⟨by simp [input_gate, chunk4, hs], by simp [forget_gate, chunk4, hs],
    by simp [output_gate, chunk4, hs], by simp [cell_gate, chunk4, hs]⟩

/-- Concrete instance of `gate_chunk_assignment_order` at a pre-activation
of length four and `H = 1`. -/
theorem gate_chunk_assignment_order_witness :
    input_gate [0, 1, 2, 3] = vsigmoid (([0, 1, 2, 3] : List ℝ).take 1) ∧
    forget_gate [0, 1, 2, 3] = vsigmoid ((([0, 1, 2, 3] : List ℝ).drop 1).take 1) ∧
    output_gate [0, 1, 2, 3] = vsigmoid (((([0, 1, 2, 3] : List ℝ).drop 1).drop 1).take 1) ∧
    cell_gate [0, 1, 2, 3] = vtanh ((((([0, 1, 2, 3] : List ℝ).drop 1).drop 1).drop 1).take 1) :=
  gate_chunk_assignment_order [0, 1, 2, 3] 1 rfl

/-- Concrete instance of `forwardFixed_memory_is_spec_blend` at the zero
cell with `D = H = 1`. -/
theorem forwardFixed_memory_is_spec_blend_witness :
    ∃ w r, preactivation cellD1H1 [0] [0] = .ok w ∧
      LSTMCell.forwardFixed cellD1H1 [0] ([0], [0]) = .ok r ∧
      r.2.2 = specMemoryBlend (forget_gate w) [0] (input_gate w) (cell_gate w) :=
  forwardFixed_memory_is_spec_blend cellD1H1 [0] ([0], [0]) rfl rfl

/-- Concrete instance of `forwardFixed_hidden_and_return_shape` at the
zero cell with `D = H = 1`. -/
theorem forwardFixed_hidden_and_return_shape_witness :
    ∃ w r, preactivation cellD1H1 [0] [0] = .ok w ∧
      LSTMCell.forwardFixed cellD1H1 [0] ([0], [0]) = .ok r ∧
      r.1 = specHiddenUpdate (output_gate w) r.2.2 ∧
      r.2.1 = r.1 :=
  forwardFixed_hidden_and_return_shape cellD1H1 [0] ([0], [0]) rfl rfl

/- ------------------------------------------------------------------ -/
/- Sequence-driver lemmas (claims C4, C6, C10).                        -/
/- ------------------------------------------------------------------ -/

/-- The loop of `LSTMLayer.forward` with an always-succeeding cell step
collects exactly the threaded per-step outputs and ends in the state
after `T` steps. -/
theorem runLoop_okStep {V S : Type} (g : V → S → V × S) :
    ∀ (inputs : List V) (state : S),
      runLoop (okStep g) inputs state =
        .ok (runOutputs g inputs state, stateAt g inputs state inputs.length)
  | [], state => rfl
  | x :: xs, state => by
    simp [runLoop, okStep, runOutputs, runLoop_okStep g xs (g x state).2, stateAt]

/-- The collected outputs number exactly one per time step. -/
theorem runOutputs_length {V S : Type} (g : V → S → V × S) :
    ∀ (inputs : List V) (state : S),
      (runOutputs g inputs state).length = inputs.length
  | [], _ => rfl
  | x :: xs, state => by
    simp [runOutputs, runOutputs_length g xs (g x state).2]

/-- The `k`-th collected output is the emitted value of the cell applied
to the `k`-th input and the state carried from the previous step. -/
theorem runOutputs_getElem {V S : Type} (g : V → S → V × S) :
    ∀ (inputs : List V) (state : S) (k : ℕ),
      (runOutputs g inputs state)[k]? =
        (inputs[k]?).map (fun v => (g v (stateAt g inputs state k)).1)
  | [], _, _ => by simp [runOutputs]
  | x :: xs, state, 0 => by simp [runOutputs, stateAt]
  | x :: xs, state, k + 1 => by
    simp [runOutputs, stateAt, runOutputs_getElem g xs (g x state).2 k]

/-- On a non-empty sequence, `LSTMLayer.forward` with an always-succeeding
step returns the collected outputs and the state after the final step. -/
theorem forward_okStep_of_ne {V S : Type} (g : V → S → V × S)
    (inputs : List V) (state : S) (hne : inputs ≠ []) :
    LSTMLayer.forward (okStep g) inputs state =
      .ok (runOutputs g inputs state, stateAt g inputs state inputs.length) := by
  match inputs, hne with
  | x :: xs, _ =>
    simp [LSTMLayer.forward, runLoop_okStep, runOutputs]

/-- Claim C4. For every non-empty input sequence and every initial state,
`LSTMLayer.forward` returns successfully the ordered per-step outputs and
the final carried state: there are exactly `T` outputs, the `k`-th output
is the cell's emitted value at the `k`-th input under the state threaded
through the first `k` steps, and the returned state is the state after
step `T - 1`. -/
theorem layer_forward_unrolls_in_order {V S : Type} (g : V → S → V × S)
    (inputs : List V) (state : S) (hne : inputs ≠ []) :
    LSTMLayer.forward (okStep g) inputs state =
      .ok (runOutputs g inputs state, stateAt g inputs state inputs.length) ∧
    (runOutputs g inputs state).length = inputs.length ∧
    ∀ k, (runOutputs g inputs state)[k]? =
      (inputs[k]?).map (fun v => (g v (stateAt g inputs state k)).1) :=
  ⟨forward_okStep_of_ne g inputs state hne, runOutputs_length g inputs state,
    runOutputs_getElem g inputs state⟩

/-- A concrete total step function over natural numbers, used to witness
the sequence-driver claims. -/
def stepG (v s : ℕ) : ℕ × ℕ := (v + s, v)

/-- Concrete instance of `layer_forward_unrolls_in_order` on the
two-step sequence `[5, 7]` from initial state `0`. -/
theorem layer_forward_unrolls_in_order_witness :
    LSTMLayer.forward (okStep stepG) [5, 7] 0 =
      .ok (runOutputs stepG [5, 7] 0, stateAt stepG [5, 7] 0 ([5, 7] : List ℕ).length) ∧
    (runOutputs stepG [5, 7] 0).length = ([5, 7] : List ℕ).length ∧
    ∀ k, (runOutputs stepG [5, 7] 0)[k]? =
      (([5, 7] : List ℕ)[k]?).map (fun v => (stepG v (stateAt stepG [5, 7] 0 k)).1) :=
  layer_forward_unrolls_in_order stepG [5, 7] 0 (by decide)

/-- Running the loop on the first `k` inputs emits the first `k` outputs
of the full run. -/
theorem runOutputs_take {V S : Type} (g : V → S → V × S) :
    ∀ (inputs : List V) (state : S) (k : ℕ),
      runOutputs g (inputs.take k) state = (runOutputs g inputs state).take k
  | [], _, _ => by simp [runOutputs]
  | _ :: _, _, 0 => by simp [runOutputs]
  | x :: xs, state, k + 1 => by
    simp [runOutputs, runOutputs_take g xs (g x state).2 k]

/-- The state after `k` steps only depends on the first `k` inputs. -/
theorem stateAt_take {V S : Type} (g : V → S → V × S) :
    ∀ (inputs : List V) (state : S) (k : ℕ),
      stateAt g (inputs.take k) state k = stateAt g inputs state k
  | [], _, _ => by simp
  | _ :: _, _, 0 => by simp [stateAt]
  | x :: xs, state, k + 1 => by
    simp [stateAt, stateAt_take g xs (g x state).2 k]

/-- Claim C6. Prefix-consistency of the sequence driver: for `1 ≤ k ≤ T`,
running `LSTMLayer.forward` on just the first `k` inputs returns
successfully, its outputs are the first `k` outputs of the full run, and
its final state is exactly the state the full run carries after
completing step `k - 1`. -/
theorem layer_forward_take_consistency {V S : Type} (g : V → S → V × S)
    (inputs : List V) (state : S) (k : ℕ) (h1 : 1 ≤ k) (h2 : k ≤ inputs.length) :
    LSTMLayer.forward (okStep g) (inputs.take k) state =
      .ok ((runOutputs g inputs state).take k, stateAt g inputs state k) := by
  have hlen : (inputs.take k).length = k := by
    rw [List.length_take]
    omega
  have hne : inputs.take k ≠ [] := by
    intro h
    rw [h] at hlen
    simp at hlen
    omega
  rw [forward_okStep_of_ne g (inputs.take k) state hne, hlen,
    runOutputs_take, stateAt_take]

/-- Concrete instance of `layer_forward_take_consistency`: the first two
steps of the three-step sequence `[5, 7, 9]` from initial state `0`. -/
theorem layer_forward_take_consistency_witness :
    LSTMLayer.forward (okStep stepG) (([5, 7, 9] : List ℕ).take 2) 0 =
      .ok ((runOutputs stepG [5, 7, 9] 0).take 2, stateAt stepG [5, 7, 9] 0 2) :=
  layer_forward_take_consistency stepG [5, 7, 9] 0 2 (by decide) (by decide)

/- ------------------------------------------------------------------ -/
/- Saturation bounds (claim C5).                                       -/
/- ------------------------------------------------------------------ -/

/-- The sigmoid saturates to `[0, 1]`. -/
theorem sigmoid_mem_unit (x : ℝ) : 0 ≤ sigmoid x ∧ sigmoid x ≤ 1 := by
  have he : 0 < Real.exp (-x) := Real.exp_pos _
  constructor
  · apply div_nonneg (by norm_num)
    linarith
  · rw [sigmoid, div_le_one (by linarith)]
    linarith

/-- The hyperbolic tangent saturates to `[-1, 1]`. -/
theorem tanh_mem_pm_one (x : ℝ) : -1 ≤ Real.tanh x ∧ Real.tanh x ≤ 1 := by
  have hc : 0 < Real.cosh x := Real.cosh_pos x
  have hadd : Real.cosh x + Real.sinh x = Real.exp x := Real.cosh_add_sinh x
  have hexp : 0 < Real.exp x := Real.exp_pos x
  rw [Real.tanh_eq_sinh_div_cosh]
  constructor
  · rw [le_div_iff₀ hc]
    linarith
  · rw [div_le_one hc]
    exact (Real.sinh_lt_cosh x).le

/-- Every element of a `zipWith` comes from a pair of elements of the two
argument lists. -/
theorem exists_of_mem_zipWith {α : Type} {f : α → α → α} :
    ∀ {xs ys : List α} {a : α}, a ∈ List.zipWith f xs ys →
      ∃ x ∈ xs, ∃ y ∈ ys, a = f x y
  | [], _, _, ha => by simp at ha
  | _ :: _, [], _, ha => by simp at ha
  | x :: xs, y :: ys, a, ha => by
    rcases List.mem_cons.1 ha with h | h
    · exact ⟨x, List.mem_cons_self x xs, y, List.mem_cons_self y ys, h⟩
    · obtain ⟨x', hx', y', hy', rfl⟩ := exists_of_mem_zipWith h
      exact ⟨x', List.mem_cons_of_mem x hx', y', List.mem_cons_of_mem y hy', rfl⟩

/-- Every component of an elementwise sigmoid lies in `[0, 1]`. -/
theorem vsigmoid_mem {l : List ℝ} {a : ℝ} (ha : a ∈ vsigmoid l) : 0 ≤ a ∧ a ≤ 1 := by
  obtain ⟨x, _, rfl⟩ := List.mem_map.1 ha
  exact sigmoid_mem_unit x

/-- Every component of an elementwise tanh lies in `[-1, 1]`. -/
theorem vtanh_mem {l : List ℝ} {a : ℝ} (ha : a ∈ vtanh l) : -1 ≤ a ∧ a ≤ 1 := by
  obtain ⟨x, _, rfl⟩ := List.mem_map.1 ha
  exact tanh_mem_pm_one x

/-- Every component of `new_hidden` lies in `[-1, 1]`: it is a `[0, 1]`
gate value times a `[-1, 1]` tanh value. -/
theorem new_hidden_mem {w m : List ℝ} {a : ℝ} (ha : a ∈ new_hidden w m) :
    -1 ≤ a ∧ a ≤ 1 := by
  obtain ⟨o, ho, t, ht, rfl⟩ := exists_of_mem_zipWith ha
  obtain ⟨ho0, ho1⟩ := vsigmoid_mem ho
  obtain ⟨ht0, ht1⟩ := vtanh_mem ht
  constructor
  · nlinarith
  · nlinarith

/-- Supporting development for claim C5 (the claim itself is settled by
`forward_literal_no_gate_application`): under the intent reading of
`LSTMCell.forward`, every correctly-shaped invocation succeeds, every
component of the three sigmoid gates (input, forget, output) lies in
`[0, 1]`, every component of the tanh candidate gate lies in `[-1, 1]`,
and every component of the emitted `new_hidden` lies in `[-1, 1]`. -/
theorem forwardFixed_gate_bounds (c : LSTMCell) (x : List ℝ) (s : List ℝ × List ℝ)
    (hx : x.length = c.input_layer.in_features)
    (hh : s.1.length = c.hidden_layer.in_features) :
    ∃ w r, preactivation c x s.1 = .ok w ∧
      LSTMCell.forwardFixed c x s = .ok r ∧
      (∀ a ∈ input_gate w, 0 ≤ a ∧ a ≤ 1) ∧
      (∀ a ∈ forget_gate w, 0 ≤ a ∧ a ≤ 1) ∧
      (∀ a ∈ output_gate w, 0 ≤ a ∧ a ≤ 1) ∧
      (∀ a ∈ cell_gate w, -1 ≤ a ∧ a ≤ 1) ∧
      (∀ a ∈ r.1, -1 ≤ a ∧ a ≤ 1) := by
  obtain ⟨w, hpre⟩ : ∃ w, preactivation c x s.1 = .ok w :=
    ⟨_, preactivation_ok c x s.1 hx hh⟩
  refine ⟨w, (new_hidden w s.2, (new_hidden w s.2, new_cell w s.2)), hpre, ?_,
    fun a ha => vsigmoid_mem ha, fun a ha => vsigmoid_mem ha,
    fun a ha => vsigmoid_mem ha, fun a ha => vtanh_mem ha,
    fun a ha => new_hidden_mem ha⟩
  simp [LSTMCell.forwardFixed, hpre]

/-- Concrete instance of `forwardFixed_gate_bounds` at the zero cell with
`D = H = 1`. -/
theorem forwardFixed_gate_bounds_witness :
    ∃ w r, preactivation cellD1H1 [0] [0] = .ok w ∧
      LSTMCell.forwardFixed cellD1H1 [0] ([0], [0]) = .ok r ∧
      (∀ a ∈ input_gate w, 0 ≤ a ∧ a ≤ 1) ∧
      (∀ a ∈ forget_gate w, 0 ≤ a ∧ a ≤ 1) ∧
      (∀ a ∈ output_gate w, 0 ≤ a ∧ a ≤ 1) ∧
      (∀ a ∈ cell_gate w, -1 ≤ a ∧ a ≤ 1) ∧
      (∀ a ∈ r.1, -1 ≤ a ∧ a ≤ 1) :=
  forwardFixed_gate_bounds cellD1H1 [0] ([0], [0]) rfl rfl

end BlackBoxML
